import Mathlib

set_option maxHeartbeats 1000000
set_option autoImplicit false

/-!
Shallow embedding of `app/clients/model/_basemodelclient.py` (class
`BaseModelClient`): request formatting, unary response formatting,
usage/cost/carbon computation, and unary/stream forwarding.

Modeling conventions:
* Python `bytes` are modeled as `String` (the code slices chunks only at the
  ASCII terminal-marker boundary, so byte indices and character indices agree
  on the inputs of interest).
* Python numbers are modeled as `Int` (token counts) and `ℚ` (costs, carbon,
  latencies); Python floats are treated as exact rationals.
* JSON values (and the Python values produced by `json.loads`, where JSON
  `null` decodes to Python `None`) are the `Json` inductive below; `Json.null`
  models Python `None`.
* Python exceptions are the `PyExc` inductive; fallible operations return
  `Except PyExc _`.
* Standard-library and collaborator functions that are not part of this
  repository's source (`json.loads`, `json.dumps`, `ast.literal_eval`, the
  non-trivial arm of `urllib.parse.urljoin`, the tokenizer, the carbon
  estimator, pydantic's `model_dump`, `contextvars` lookups, request-id
  generation) are supplied through an explicit `Env` record.  All control
  flow and arithmetic of the repository code itself is translated concretely.
-/

/-- JSON values / decoded Python values.  `Json.null` models Python `None`. -/
inductive Json where
  | null
  | bool (b : Bool)
  | num (q : ℚ)
  | str (s : String)
  | arr (xs : List Json)
  | obj (kvs : List (String × Json))

/-- Python exception kinds that the modeled code can raise, with `generic`
for any other exception class. -/
inductive PyExc where
  | jsonDecodeError
  | keyError
  | typeError
  | indexError
  | attributeError
  | lookupError
  | validationError
  | generic (s : String)
deriving DecidableEq

/-- Python `type(e).__name__` for the modeled exception kinds. -/
def PyExc.excName : PyExc → String
  | .jsonDecodeError => "JSONDecodeError"
  | .keyError => "KeyError"
  | .typeError => "TypeError"
  | .indexError => "IndexError"
  | .attributeError => "AttributeError"
  | .lookupError => "LookupError"
  | .validationError => "ValidationError"
  | .generic s => s

/-- First value bound to key `k` in an association list (Python dict lookup). -/
def lookupKey (kvs : List (String × Json)) (k : String) : Option Json :=
  (kvs.find? (fun p => p.1 == k)).map (·.2)

/-- Python `k in d` for a dict modeled as an association list. -/
def hasKey (kvs : List (String × Json)) (k : String) : Bool :=
  kvs.any (fun p => p.1 == k)

/-- Python `d[k] = v` on a dict: replace the binding in place if the key is
present, else append it. -/
def setPairs (kvs : List (String × Json)) (k : String) (v : Json) :
    List (String × Json) :=
  if hasKey kvs k then kvs.map (fun p => if p.1 == k then (k, v) else p)
  else kvs ++ [(k, v)]

/-- Substring test on character lists (structural, for Python `in` on
strings). -/
def listHasSub (needle : List Char) : List Char → Bool
  | [] => needle.isEmpty
  | c :: rest => needle.isPrefixOf (c :: rest) || listHasSub needle rest

/-- Python `k in x` (membership test): dict keys for objects, element
equality for lists, substring test for strings, `TypeError` otherwise. -/
def pyIn (j : Json) (k : String) : Except PyExc Bool :=
  match j with
  | .obj kvs => .ok (hasKey kvs k)
  | .arr xs => .ok (xs.any (fun x => match x with | .str s => s == k | _ => false))
  | .str s => .ok (listHasSub k.toList s.toList)
  | _ => .error .typeError

/-- Python `x[k]` with a string key: dict lookup (`KeyError` when absent),
`TypeError` on any non-dict value. -/
def pyGetItem (j : Json) (k : String) : Except PyExc Json :=
  match j with
  | .obj kvs =>
    match lookupKey kvs k with
    | some v => .ok v
    | none => .error .keyError
  | _ => .error .typeError

/-- Python `x[i]` with an integer index: list indexing (`IndexError` out of
range), `KeyError` on a JSON object (its keys are strings), `TypeError`
otherwise. -/
def pyIndexInt (j : Json) (i : Nat) : Except PyExc Json :=
  match j with
  | .arr xs =>
    match xs.get? i with
    | some v => .ok v
    | none => .error .indexError
  | .obj _ => .error .keyError
  | _ => .error .typeError

/-- Python `x.get(k, default)`: defined on dicts only; any other value
(including `None`) has no `.get` attribute and raises `AttributeError`. -/
def pyDictGet (j : Json) (k : String) (deflt : Json) : Except PyExc Json :=
  match j with
  | .obj kvs => .ok ((lookupKey kvs k).getD deflt)
  | _ => .error .attributeError

/-- Python `x[k] = v` with a string key: in-place dict update modeled
functionally; `TypeError` on non-dict values. -/
def pySetItem (j : Json) (k : String) (v : Json) : Except PyExc Json :=
  match j with
  | .obj kvs => .ok (.obj (setPairs kvs k v))
  | _ => .error .typeError

/-- Python `x.update(d)`: defined on dicts only (`AttributeError` otherwise),
merging the bindings of `upd` left to right. -/
def pyUpdate (j : Json) (upd : List (String × Json)) : Except PyExc Json :=
  match j with
  | .obj kvs => .ok (.obj (upd.foldl (fun acc p => setPairs acc p.1 p.2) kvs))
  | _ => .error .attributeError

/-- Python truthiness of a decoded value. -/
def pyTruthy (j : Json) : Bool :=
  match j with
  | .null => false
  | .bool b => b
  | .num q => q != 0
  | .str s => s != ""
  | .arr xs => !xs.isEmpty
  | .obj kvs => !kvs.isEmpty

/-- Python `x != ""` where `x` is an arbitrary decoded value: equality between
a non-`str` value and a `str` is always `False` in Python, so the disequality
is `True` for every non-string; for strings it is the string disequality. -/
def pyNeEmptyStr (j : Json) : Bool :=
  match j with
  | .str s => s != ""
  | _ => true

/-- Python `last_chunks != ""` at `_basemodelclient.py:429`, where
`last_chunks` is a `bytes` value and `""` is a `str`: in Python a `bytes`
value never equals a `str`, so this comparison is `True` for every
`last_chunks`, including the empty byte string. -/
def bytesNeEmptyStr (_lastChunks : String) : Bool := true

/-- Carbon bounds pair, each bound independently optional
(`min`/`max` of `kgCO2eq` or `kWh`). -/
structure Bounds where
  min : Option ℚ
  max : Option ℚ
deriving DecidableEq

/-- Modelled from the spec: carbon estimate
`{kgCO2eq: {min, max}, kWh: {min, max}}` with all four bounds independently
optional (the `app.schemas.usage` pydantic models are not part of the
provided sources). -/
structure CarbonFootprint where
  kgCO2eq : Bounds
  kWh : Bounds
deriving DecidableEq

/-!
Modelled from the spec: the `Usage` / `Detail` pydantic models of
`app.schemas.usage` (not part of the provided sources).  `Usage` aggregates
prompt/completion/total token counts, cost, a carbon estimate and an ordered
sequence of per-item `Detail` records; a `Detail` holds its own id, model
name and per-item `Usage`.
-/
mutual
inductive Usage where
  | mk (prompt_tokens : Int) (completion_tokens : Int) (total_tokens : Int)
      (cost : ℚ) (carbon : CarbonFootprint) (details : List Detail) : Usage
inductive Detail where
  | mk (id : String) (model : String) (usage : Usage) : Detail
end

def Usage.prompt_tokens : Usage → Int
  | .mk p _ _ _ _ _ => p

def Usage.completion_tokens : Usage → Int
  | .mk _ c _ _ _ _ => c

def Usage.total_tokens : Usage → Int
  | .mk _ _ t _ _ _ => t

def Usage.cost : Usage → ℚ
  | .mk _ _ _ q _ _ => q

def Usage.carbon : Usage → CarbonFootprint
  | .mk _ _ _ _ cf _ => cf

def Usage.details : Usage → List Detail
  | .mk _ _ _ _ _ ds => ds

def Detail.id : Detail → String
  | .mk i _ _ => i

def Detail.model : Detail → String
  | .mk _ m _ => m

def Detail.usage : Detail → Usage
  | .mk _ _ u => u

/-- Modelled from the spec: a fresh `Usage()` accumulator with zero token
counts and cost and all carbon bounds absent. -/
def Usage.empty : Usage :=
  .mk 0 0 0 0 ⟨⟨none, none⟩, ⟨none, none⟩⟩ []

/-- Logical endpoints, the keys of `ENDPOINT_TABLE`. -/
inductive Endpoint where
  | audioTranscriptions
  | chatCompletions
  | completions
  | embeddings
  | models
  | ocr
  | rerank
deriving DecidableEq

/-- Cost schedule of a backend (`ModelCosts`). -/
structure Costs where
  prompt_tokens : ℚ
  completion_tokens : ℚ
deriving DecidableEq

/-- Carbon profile of a backend (`ModelClientCarbonFootprint`), passed opaquely
to the carbon estimator. -/
structure CarbonParams where
  active_params : Option ℚ
  total_params : Option ℚ
  model_zone : String
deriving DecidableEq

/-- The state of a `BaseModelClient` instance used by the modeled methods:
model name, cost schedule, carbon profile, base URL, credential, the
logical endpoint set by the router, and the (construction-time, immutable)
`ENDPOINT_TABLE` mapping from logical endpoints to backend paths
(`none` models a `None` table entry). -/
structure ModelClient where
  model : String
  costs : Costs
  carbon : CarbonParams
  apiUrl : String
  apiKey : String
  endpoint : Endpoint
  endpointTable : Endpoint → Option String

/-- External collaborators and standard-library functions used by
`BaseModelClient` that are not themselves code of this repository; supplied
as an explicit environment.  `loads` returns `none` to model a
`JSONDecodeError`; note Python `json.loads "null"` succeeds with result
`None`, modeled as `some Json.null`. -/
structure Env where
  loads : String → Option Json
  dumps : Json → String
  literalEval : String → Option Json
  resolve : String → String → String
  usageEndpoints : Endpoint → Option Bool
  requestUsage : Except PyExc Usage
  requestCtxId : Except PyExc String
  genId : String
  getPromptTokens : Endpoint → Option Json → Except PyExc Int
  getCompletionTokens : Endpoint → Json → Bool → Except PyExc Int
  getCarbonFootprint : CarbonParams → Int → ℚ → Except PyExc CarbonFootprint
  modelDump : Usage → Json

/-- Python `urllib.parse.urljoin(base, url)`: when `url` is falsy (`None` or
the empty string) the base is returned unchanged before any parsing; the
non-trivial RFC-3986 resolution for a truthy `url` is supplied by the
environment. -/
def pyUrljoin (env : Env) (base : String) (url : Option String) : String :=
  match url with
  | none => base
  | some u => if u = "" then base else env.resolve base u

/-- The tuple returned by `_format_request`. -/
structure FormattedRequest where
  url : String
  headers : List (String × String)
  json : Option Json
  files : Option Json
  data : Option Json

/-- `BaseModelClient._format_request` (lines 194-212): resolve the URL from
`ENDPOINT_TABLE`, build the bearer header, and when the JSON body is truthy
and contains a `model` key, overwrite that key with the backend's own model
identifier. -/
def formatRequest (env : Env) (self : ModelClient)
    (json files data : Option Json) : Except PyExc FormattedRequest :=
  let url := pyUrljoin env self.apiUrl (self.endpointTable self.endpoint)
  let headers := [("Authorization", "Bearer " ++ self.apiKey)]
  match json with
  | none => .ok ⟨url, headers, none, files, data⟩
  | some j =>
    if pyTruthy j then
      match pyIn j "model" with
      | .error e => .error e
      | .ok true =>
        match pySetItem j "model" (.str self.model) with
        | .error e => .error e
        | .ok j' => .ok ⟨url, headers, some j', files, data⟩
      | .ok false => .ok ⟨url, headers, some j, files, data⟩
    else .ok ⟨url, headers, some j, files, data⟩

/-- Python `round(x, ndigits=6)` on the exact rational model of the cost
arithmetic: round `x` to six decimal places. -/
def round6 (q : ℚ) : ℚ := ((round (q * 1000000) : ℤ) : ℚ) / 1000000

/-- One carbon-bound accumulation step of `_get_usage` (the pattern repeated
at lines 159-174 for each of the four bounds): if the detail's bound is
`None` the accumulator bound is left untouched; otherwise the accumulator
bound is lazily initialized to `0.0` when absent and the detail's bound is
added. -/
def accCarbonBound (acc : Option ℚ) (contrib : Option ℚ) : Option ℚ :=
  match contrib with
  | none => acc
  | some v => some (acc.getD 0 + v)

/-- Lines 148-174 of `_get_usage`: append the detail to the accumulator and
add its token counts, cost and (conditionally) carbon bounds into the
accumulator's running totals. -/
def accumulate (u : Usage) (d : Detail) : Usage :=
  Usage.mk (u.prompt_tokens + d.usage.prompt_tokens)
    (u.completion_tokens + d.usage.completion_tokens)
    (u.total_tokens + d.usage.total_tokens)
    (u.cost + d.usage.cost)
    ⟨⟨accCarbonBound u.carbon.kgCO2eq.min d.usage.carbon.kgCO2eq.min,
      accCarbonBound u.carbon.kgCO2eq.max d.usage.carbon.kgCO2eq.max⟩,
     ⟨accCarbonBound u.carbon.kWh.min d.usage.carbon.kWh.min,
      accCarbonBound u.carbon.kWh.max d.usage.carbon.kWh.max⟩⟩
    (u.details ++ [d])

/-- Pydantic validation of `Detail(id=detail_id, ...)`: the `id` field is
typed `str`, so a non-string raises a validation error. -/
def expectStr (j : Json) : Except PyExc String :=
  match j with
  | .str s => .ok s
  | _ => .error .validationError

/-- The fields of the `Detail` built by lines 127-147 of `_get_usage`, from
the resolved id, token counts and carbon estimate: `total_tokens` is the sum
of prompt and completion tokens, and `cost` is the 6-decimal rounding of the
per-million-token cost formula of line 147. -/
def mkDetail (self : ModelClient) (idStr : String) (prompt completion : Int)
    (carbon : CarbonFootprint) : Detail :=
  Detail.mk idStr self.model
    (Usage.mk prompt completion (prompt + completion)
      (round6 ((prompt : ℚ) / 1000000 * self.costs.prompt_tokens
        + (completion : ℚ) / 1000000 * self.costs.completion_tokens))
      carbon [])

/-- Lines 127-147 of `_get_usage` (the fallible detail computation inside the
`try` block): resolve the detail id (`data[0].get("id", ...)` when streaming,
`data.get("id", ...)` otherwise), validate it, compute prompt tokens, compute
completion tokens only when the endpoint's completion flag is set (else the
`Usage()` default `0`), then the carbon estimate over the total. -/
def computeDetail (env : Env) (self : ModelClient) (flag : Bool)
    (json : Option Json) (data : Json) (stream : Bool) (latency : ℚ) :
    Except PyExc Detail :=
  match (if stream then
          match pyIndexInt data 0 with
          | .error e => .error e
          | .ok first => pyDictGet first "id" (.str env.genId)
        else pyDictGet data "id" (.str env.genId)) with
  | .error e => .error e
  | .ok detailId =>
    match expectStr detailId with
    | .error e => .error e
    | .ok idStr =>
      match env.getPromptTokens self.endpoint json with
      | .error e => .error e
      | .ok prompt =>
        match (if flag then env.getCompletionTokens self.endpoint data stream
               else .ok 0) with
        | .error e => .error e
        | .ok completion =>
          match env.getCarbonFootprint self.carbon (prompt + completion) latency with
          | .error e => .error e
          | .ok carbon => .ok (mkDetail self idStr prompt completion carbon)

/-- `BaseModelClient._get_usage` (lines 107-179).  `usage` starts as `None`;
when the endpoint is usage-bearing the `try` block first rebinds `usage` to
the per-request accumulator, then computes a detail and folds it into the
accumulator.  Any exception is caught and logged and the current value of
`usage` is returned: `None` when `request_context.get().usage` itself raised,
the untouched accumulator when the detail computation raised, and the updated
accumulator on success. -/
def getUsage (env : Env) (self : ModelClient) (json : Option Json)
    (data : Json) (stream : Bool) (latency : ℚ) : Option Usage :=
  match env.usageEndpoints self.endpoint with
  | none => none
  | some flag =>
    match env.requestUsage with
    | .error _ => none
    | .ok acc =>
      match computeDetail env self flag json data stream latency with
      | .error _ => some acc
      | .ok d => some (accumulate acc d)

/-- `BaseModelClient._get_additional_data` (lines 181-192): the request id is
the last detail's id when usage was computed and has details, else a freshly
generated id; the returned dict carries `model`, `id`, and `usage` (the
pydantic dump) only when usage is not `None`. -/
def getAdditionalData (env : Env) (self : ModelClient) (json : Option Json)
    (data : Json) (stream : Bool) (latency : ℚ) : List (String × Json) :=
  let usage := getUsage env self json data stream latency
  let requestId :=
    match usage with
    | some u =>
      match u.details.getLast? with
      | some d => d.id
      | none => env.genId
    | none => env.genId
  match usage with
  | some u =>
    [("model", .str self.model), ("id", .str requestId), ("usage", env.modelDump u)]
  | none => [("model", .str self.model), ("id", .str requestId)]

/-- An `httpx.Response` as seen by the modeled code: status code, headers and
a decoded body text. -/
structure HttpxResponse where
  statusCode : Nat
  headers : List (String × String)
  body : String
deriving DecidableEq

/-- `response.headers.get(k, default)` on httpx's case-insensitive headers
(keys compared after ASCII lowering). -/
def headersGet (hs : List (String × String)) (k : String) (deflt : String) :
    String :=
  match hs.find?
      (fun p => p.1.toList.map Char.toLower == k.toList.map Char.toLower) with
  | some p => p.2
  | none => deflt

/-- `BaseModelClient._format_response` (lines 214-240): only when the
Content-Type header is exactly `application/json` is the body decoded, merged
with `_get_additional_data` and the caller-supplied additional data, and
re-serialized into a fresh `httpx.Response` carrying the original status code
(the fresh response's default httpx headers are modeled as empty); for every
other header value the original response object is returned unchanged. -/
def formatResponse (env : Env) (self : ModelClient) (json : Option Json)
    (response : HttpxResponse) (additionalData : List (String × Json))
    (requestLatency : ℚ) : Except PyExc HttpxResponse :=
  let contentType := headersGet response.headers "Content-Type" ""
  if contentType = "application/json" then
    match env.loads response.body with
    | none => .error .jsonDecodeError
    | some data0 =>
      match pyUpdate data0
          (getAdditionalData env self json data0 false requestLatency) with
      | .error e => .error e
      | .ok data1 =>
        match pyUpdate data1 additionalData with
        | .error e => .error e
        | .ok data2 => .ok ⟨response.statusCode, [], env.dumps data2⟩
  else .ok response

/-- Lines 298-308 of `forward_request`: best-effort parse of an upstream
error body.  A body that is not JSON falls back to the raw text; a decoded
value containing a `message` member has that member literal-evaluated when it
is a string that parses, kept as-is otherwise; the `in` test and the repeated
`message["message"]` access can themselves raise (only `JSONDecodeError` is
caught by the outer handler). -/
def parseUpstreamError (env : Env) (text : String) : Except PyExc Json :=
  match env.loads text with
  | none => .ok (.str text)
  | some message =>
    match pyIn message "message" with
    | .error e => .error e
    | .ok false => .ok message
    | .ok true =>
      match pyGetItem message "message" with
      | .error e => .error e
      | .ok (.str s) => .ok ((env.literalEval s).getD (.str s))
      | .ok inner => .ok inner

/-- The httpx timeout varieties caught at lines 290 and 464:
`TimeoutException, ReadTimeout, ConnectTimeout, WriteTimeout, PoolTimeout`. -/
inductive TimeoutKind where
  | timeoutException
  | readTimeout
  | connectTimeout
  | writeTimeout
  | poolTimeout
deriving DecidableEq

/-- Outcome of the transport call issued by `forward_request`: a response, a
timeout of some variety, or another transport exception carrying its kind
name. -/
inductive TransportResult where
  | ok (resp : HttpxResponse)
  | timeout (k : TimeoutKind)
  | exc (name : String)

/-- Errors escaping `forward_request`: a plain Python exception or a fastapi
`HTTPException` with status code and detail. -/
inductive PyErr where
  | exc (e : PyExc)
  | http (status : Nat) (detail : Json)

/-- `BaseModelClient.forward_request` (lines 259-320): format the request;
on any httpx timeout variety raise `HTTPException(504)` with the fixed
message; on any other transport exception raise `HTTPException(500)` with the
exception kind name; on a non-2xx upstream status raise `HTTPException` with
the upstream status and the best-effort parsed message; otherwise format the
response (the detached metrics task has no effect on the returned value and
is not modeled). -/
def forwardRequest (env : Env) (self : ModelClient) (_method : String)
    (json files data : Option Json) (additionalData : List (String × Json))
    (transport : TransportResult) (requestLatency : ℚ) :
    Except PyErr HttpxResponse :=
  match formatRequest env self json files data with
  | .error e => .error (.exc e)
  | .ok fr =>
    match transport with
    | .timeout _ =>
      .error (.http 504 (.str "Request timed out, model is too busy."))
    | .exc n => .error (.http 500 (.str n))
    | .ok response =>
      if response.statusCode / 100 = 2 then
        match formatResponse env self fr.json response additionalData
            requestLatency with
        | .error e => .error (.exc e)
        | .ok r => .ok r
      else
        match parseUpstreamError env response.body with
        | .error e => .error (.exc e)
        | .ok message => .error (.http response.statusCode message)

/-- The literal terminal marker `data: [DONE]` searched for at line 410. -/
def markerStr : String := "data: [DONE]"

/-- `re.search(rb"data: \[DONE\]", chunk)`: character index of the first
occurrence of the terminal marker in the chunk, if any. -/
def findMarker (s : String) : Option Nat :=
  (List.range (s.length + 1)).find?
    (fun i => markerStr.toList.isPrefixOf (s.toList.drop i))

/-- Python `s.removeprefix("data: ")`. -/
def stripDataTag (s : String) : String :=
  if "data: ".toList.isPrefixOf s.toList then s.drop 6 else s

/-- Python `x is None` for decoded values (`Json.null` models `None`). -/
def Json.isNull : Json → Bool
  | .null => true
  | _ => false

/-- Python `s.split("\n\n")`: split at every non-overlapping, leftmost
occurrence of the double newline. -/
def splitNN : List Char → List (List Char)
  | [] => [[]]
  | '\n' :: '\n' :: rest => [] :: splitNN rest
  | c :: rest =>
    match splitNN rest with
    | [] => [[c]]
    | h :: t => (c :: h) :: t

/-- ASCII whitespace stripped by Python `s.strip()`. -/
def isSpaceChar (c : Char) : Bool :=
  c == ' ' || c == '\t' || c == '\n' || c == '\r' || c == '\x0b' || c == '\x0c'

/-- Python `s.strip()`: drop leading and trailing whitespace. -/
def trimChars (cs : List Char) : List Char :=
  ((cs.dropWhile isSpaceChar).reverse.dropWhile isSpaceChar).reverse

/-- The SSE payload lines extracted from one buffered chunk by
`_format_stream_response` (lines 342-350): split on the double newline,
strip each line, keep only lines carrying the `data: ` tag, drop the tag,
and skip lines left empty. -/
def dataLines (chunk : String) : List String :=
  (splitNN chunk.toList).filterMap (fun l0 =>
    let l1 := trimChars l0
    if "data: ".toList.isPrefixOf l1 then
      let l2 := l1.drop 6
      if l2.isEmpty then none else some (String.mk l2)
    else none)

/-- The decode loop of `_format_stream_response` (lines 351-355): `content`
holds the last successfully decoded payload (initially Python `None`),
the second component lists every successfully decoded payload in order, and
decode failures are logged at debug level and skipped. -/
def contentFold (env : Env) (acc : Json × List Json) (lines : List String) :
    Json × List Json :=
  lines.foldl (fun acc l =>
    match env.loads l with
    | some j => (j, acc.2 ++ [j])
    | none => acc) acc

/-- `BaseModelClient._format_stream_response` (lines 322-367): reconstruct
the decoded event sequence from the buffered chunks; when no payload ever
decoded (or the last decoded payload is JSON `null`, since Python
`loads("null") is None`), return `None`; otherwise build the extra chunk from
the last decoded payload with `choices` cleared, `_get_additional_data`
merged in, then the caller's additional data. -/
def formatStreamResponse (env : Env) (self : ModelClient) (json : Option Json)
    (response : List String) (additionalData : List (String × Json))
    (requestLatency : ℚ) : Except PyExc (Option Json) :=
  let cf := contentFold env (.null, []) ((response.map dataLines).flatten)
  if cf.1.isNull then .ok none
  else
    match pyUpdate cf.1 [("choices", .arr [])] with
    | .error e => .error e
    | .ok e1 =>
      match pyUpdate e1
          (getAdditionalData env self json (.arr cf.2) true requestLatency) with
      | .error e => .error e
      | .ok e2 =>
        match pyUpdate e2 additionalData with
        | .error e => .error e
        | .ok e3 => .ok (some e3)

/-- Lines 413-419 of `forward_stream`: best-effort probe for the first
token; every failure of the probe is swallowed (logged at debug level) and
leaves the timestamp unset.  Python compares the extracted `content` member
against the empty string with `!=`, which is `True` for any non-string
value. -/
def probeFirstToken (env : Env) (chunk : String) : Bool :=
  match env.loads (stripDataTag chunk) with
  | none => false
  | some j =>
    match pyGetItem j "choices" with
    | .error _ => false
    | .ok cs =>
      match pyIndexInt cs 0 with
      | .error _ => false
      | .ok c0 =>
        match pyGetItem c0 "delta" with
        | .error _ => false
        | .ok d =>
          match pyGetItem d "content" with
          | .error _ => false
          | .ok v => pyNeEmptyStr v

/-- Lines 401-405 of `forward_stream`: when the decoded error payload has a
`message` member, try to literal-evaluate it in place; every failure of the
attempt is swallowed (`except Exception: pass`). -/
def tryEvalMessage (env : Env) (j : Json) : Json :=
  match pyGetItem j "message" with
  | .ok (.str s) =>
    match env.literalEval s with
    | some v =>
      match pySetItem j "message" v with
      | .ok j' => j'
      | .error _ => j
    | none => j
  | _ => j

/-- Per-stream loop state of `forward_stream`: the assembly buffer and
whether the first-token timestamp has been recorded (`first_token_time is
not None`). -/
structure LoopSt where
  buffer : List String
  firstToken : Bool
deriving DecidableEq

/-- Loop state at line 394-396: empty buffer, no first-token timestamp. -/
def initLoopSt : LoopSt := ⟨[], false⟩

/-- One iteration of the `async for` body of `forward_stream`
(lines 397-462), producing the yielded (bytes, status) pairs and the updated
loop state, or the Python exception escaping the iteration.  Wall-clock
readings are not modeled: the latency handed to the usage computation is 0,
and the warning path for an undetermined first token evaluates
`request_context.get().id` (which can itself raise). -/
def stepChunk (env : Env) (self : ModelClient) (json : Option Json)
    (additionalData : List (String × Json)) (status : Nat) (st : LoopSt)
    (chunk : String) : Except PyExc (List (String × Nat) × LoopSt) :=
  if status / 100 ≠ 2 then
    match env.loads chunk with
    | none => .error .jsonDecodeError
    | some j =>
      match pyIn j "message" with
      | .error e => .error e
      | .ok b =>
        let j' := if b then tryEvalMessage env j else j
        .ok ([(env.dumps j', status)], st)
  else
    match findMarker chunk with
    | none =>
      let ft := if st.firstToken then true else probeFirstToken env chunk
      .ok ([(chunk, status)], ⟨st.buffer ++ [chunk], ft⟩)
    | some i =>
      let lastChunks := chunk.take i
      let doneChunk := chunk.drop i
      let ft :=
        if !st.firstToken && bytesNeEmptyStr lastChunks && st.buffer.isEmpty
        then true else st.firstToken
      let buf := st.buffer ++ [lastChunks]
      match (if ft then Except.ok "" else env.requestCtxId) with
      | .error e => .error e
      | .ok _ =>
        match formatStreamResponse env self json buf additionalData 0 with
        | .error e => .error e
        | .ok none => .ok ([(chunk, status)], ⟨buf, ft⟩)
        | .ok (some extra) =>
          .ok ([(lastChunks, status),
                ("data: " ++ env.dumps extra ++ "\n\n", status),
                (doneChunk, status)], ⟨buf, ft⟩)

/-- Result of driving the `async for` over the received chunks: either the
final loop state, or the Python exception that escaped some iteration. -/
inductive ChunkRes where
  | ok (st : LoopSt)
  | raised (e : PyExc)
deriving DecidableEq

/-- Drive `stepChunk` over the received chunks, concatenating the yields and
stopping at the first escaping exception. -/
def runChunks (env : Env) (self : ModelClient) (json : Option Json)
    (additionalData : List (String × Json)) (status : Nat) (st : LoopSt) :
    List String → List (String × Nat) × ChunkRes
  | [] => ([], .ok st)
  | c :: cs =>
    match stepChunk env self json additionalData status st c with
    | .error e => ([], .raised e)
    | .ok (outs, st') =>
      let rest := runChunks env self json additionalData status st' cs
      (outs ++ rest.1, rest.2)

/-- How the transport's chunk sequence ended: normal completion, an httpx
timeout of some variety, or another transport exception with its kind
name. -/
inductive StreamEnd where
  | done
  | timeout (k : TimeoutKind)
  | exc (name : String)

/-- A stream interaction as seen by `forward_stream`: the upstream status
code, the chunks received before the sequence ended, and how it ended. -/
structure StreamInput where
  status : Nat
  chunks : List String
  ending : StreamEnd

/-- The 500 payload yielded by the `except Exception` clause at lines
466-468 for a Python exception; exceptions raised inside the loop are never
httpx timeouts, so they always land in this clause. -/
def pyExcPair (env : Env) (e : PyExc) : String × Nat :=
  (env.dumps (.obj [("detail", .str e.excName)]), 500)

/-- The fixed 504 payload yielded by the timeout clause at lines 464-465. -/
def timeoutPair (env : Env) : String × Nat :=
  (env.dumps (.obj [("detail", .str "Request timed out, model is too busy.")]),
    504)

/-- The `try` body plus except clauses of `forward_stream` (lines 391-468)
over one stream interaction: the yields of the received chunks, then exactly
one in-band error pair when an exception escaped the loop or ended the
transport sequence. -/
def streamLoop (env : Env) (self : ModelClient) (json : Option Json)
    (additionalData : List (String × Json)) (inp : StreamInput) :
    List (String × Nat) :=
  let r := runChunks env self json additionalData inp.status initLoopSt
    inp.chunks
  match r.2 with
  | .raised e => r.1 ++ [pyExcPair env e]
  | .ok _ =>
    match inp.ending with
    | .done => r.1
    | .timeout _ => r.1 ++ [timeoutPair env]
    | .exc n => r.1 ++ [(env.dumps (.obj [("detail", .str n)]), 500)]

/-- `BaseModelClient.forward_stream` (lines 369-468): `_format_request` runs
before the `try` block, so its exceptions escape the generator; everything
raised inside the `try` is converted by the except clauses into a final
in-band (bytes, status) pair.  The detached metrics task has no effect on
the yielded sequence and is not modeled. -/
def forwardStream (env : Env) (self : ModelClient) (_method : String)
    (json files data : Option Json) (additionalData : List (String × Json))
    (inp : StreamInput) : Except PyExc (List (String × Nat)) :=
  match formatRequest env self json files data with
  | .error e => .error e
  | .ok fr => .ok (streamLoop env self fr.json additionalData inp)

/-- A concrete environment for witnesses: `loads` decodes only the literal
`null` payload, the endpoint set is empty, all collaborators are total. -/
def env0 : Env where
  loads := fun s => if s = "null" then some .null else none
  dumps := fun _ => "{}"
  literalEval := fun _ => none
  resolve := fun b u => b ++ u
  usageEndpoints := fun _ => none
  requestUsage := .ok Usage.empty
  requestCtxId := .ok "rid"
  genId := "gen"
  getPromptTokens := fun _ _ => .ok 0
  getCompletionTokens := fun _ _ _ => .ok 0
  getCarbonFootprint := fun _ _ _ => .ok ⟨⟨none, none⟩, ⟨none, none⟩⟩
  modelDump := fun _ => .null

/-- A concrete backend client for witnesses. -/
def self0 : ModelClient where
  model := "backend-name"
  costs := ⟨1, 2⟩
  carbon := ⟨none, none, "zone"⟩
  apiUrl := "http://api/"
  apiKey := "k"
  endpoint := .chatCompletions
  endpointTable := fun _ => some "/v1/chat"

/-- `self0` with every `ENDPOINT_TABLE` entry `None` (an unsupported
endpoint). -/
def selfNull : ModelClient :=
  { self0 with endpointTable := fun _ => none }

/-- `env0` with a usage-bearing endpoint set and a tokenizer returning 3
prompt and 5 completion tokens. -/
def envTok : Env :=
  { env0 with
    usageEndpoints := fun _ => some true
    getPromptTokens := fun _ _ => .ok 3
    getCompletionTokens := fun _ _ _ => .ok 5 }

/-- `env0` with a usage-bearing endpoint set and a tokenizer that raises. -/
def envBoom : Env :=
  { env0 with
    usageEndpoints := fun _ => some true
    getPromptTokens := fun _ _ => .error (.generic "Boom") }

/-- An all-absent carbon footprint. -/
def cb0 : CarbonFootprint := ⟨⟨none, none⟩, ⟨none, none⟩⟩

theorem runChunks_append_ok (env : Env) (self : ModelClient)
    (json : Option Json) (add : List (String × Json)) (status : Nat)
    (pre : List String) :
    ∀ (st st' : LoopSt) (outs : List (String × Nat)) (rest : List String),
      runChunks env self json add status st pre = (outs, .ok st') →
      runChunks env self json add status st (pre ++ rest) =
        (outs ++ (runChunks env self json add status st' rest).1,
          (runChunks env self json add status st' rest).2) := by
  induction pre with
  | nil =>
    intro st st' outs rest h
    simp only [runChunks] at h
    obtain ⟨h1, h2⟩ := Prod.mk.injEq .. ▸ h
    injection h2 with h2
    subst h2
    simp [← h1]
  | cons c cs ih =>
    intro st st' outs rest h
    simp only [runChunks, List.cons_append] at h ⊢
    cases hs : stepChunk env self json add status st c with
    | error e =>
      rw [hs] at h
      simp at h
    | ok p =>
      obtain ⟨o1, st1⟩ := p
      rw [hs] at h
      simp only at h
      cases hr : runChunks env self json add status st1 cs with
      | mk o2 r2 =>
        rw [hr] at h
        simp only [Prod.mk.injEq] at h
        obtain ⟨h1, h2⟩ := h
        subst h1
        have hx := ih st1 st' o2 rest (by rw [hr, h2])
        simp only [List.append_eq] at hx ⊢
        simp [hx, List.append_assoc]

theorem contentFold_skip_all (env : Env) (lines : List String)
    (h : ∀ l ∈ lines, env.loads l = none) :
    ∀ acc, contentFold env acc lines = acc := by
  induction lines with
  | nil => intro acc; rfl
  | cons l ls ih =>
    intro acc
    have hl : env.loads l = none := h l (by simp)
    have hrest : ∀ x ∈ ls, env.loads x = none := fun x hx => h x (by simp [hx])
    simp only [contentFold, List.foldl_cons]
    rw [hl]
    exact ih hrest acc

theorem formatStreamResponse_skip_all (env : Env) (self : ModelClient)
    (json : Option Json) (buffer : List String)
    (add : List (String × Json)) (lat : ℚ)
    (h : ∀ l ∈ (buffer.map dataLines).flatten, env.loads l = none) :
    formatStreamResponse env self json buffer add lat = .ok none := by
  unfold formatStreamResponse
  rw [contentFold_skip_all env _ h (.null, [])]
  rfl

theorem computeDetail_ok_shape (env : Env) (self : ModelClient) (flag : Bool)
    (json : Option Json) (data : Json) (stream : Bool) (latency : ℚ)
    (d : Detail)
    (h : computeDetail env self flag json data stream latency = .ok d) :
    ∃ idStr prompt completion carbon,
      d = mkDetail self idStr prompt completion carbon := by
  unfold computeDetail at h
  repeat' split at h
  all_goals try exact Except.noConfusion h
  injection h with h
  exact ⟨_, _, _, _, h.symm⟩

theorem lookupKey_setPairs (kvs : List (String × Json)) (k : String)
    (v : Json) : lookupKey (setPairs kvs k v) k = some v := by
  unfold setPairs
  split
  · rename_i hk
    revert hk
    induction kvs with
    | nil => intro hk; simp [hasKey] at hk
    | cons p ps ih =>
      intro hk
      by_cases hp : (p.1 == k) = true
      · unfold lookupKey
        rw [List.map_cons, if_pos hp, List.find?_cons_of_pos _ (by simp)]
        rfl
      · unfold lookupKey
        rw [List.map_cons, if_neg hp,
          List.find?_cons_of_neg _ (by simpa using hp)]
        have hk' : hasKey ps k = true := by
          simp [hasKey] at hk ⊢
          rcases hk with h1 | h1
          · exact absurd (by simp [h1]) hp
          · exact h1
        simpa [lookupKey] using ih hk'
  · rename_i hk
    revert hk
    induction kvs with
    | nil =>
      intro _
      unfold lookupKey
      rw [List.nil_append, List.find?_cons_of_pos _ (by simp)]
      rfl
    | cons p ps ih =>
      intro hk
      have hp : ¬(p.1 == k) = true := by
        intro hc
        exact hk (by simp [hasKey, List.any_cons] at hc ⊢; left; simpa using hc)
      have hk' : ¬hasKey ps k = true := by
        intro hc
        apply hk
        simp [hasKey, List.any_cons] at hc ⊢
        right
        exact hc
      unfold lookupKey
      rw [List.cons_append, List.find?_cons_of_neg _ (by simpa using hp)]
      simpa [lookupKey] using ih hk'

/-- C2 (amended): every exception inside the usage computation is caught and
logged and `_get_usage` returns normally, but the returned value is the
current `usage` binding, not always `None`: when `request_context.get().usage`
itself raised the result is `None`; when the detail computation raised after
the accumulator was resolved, the result is the untouched accumulator (so the
response path proceeds, with that usage attached). -/
theorem getUsage_exception_policy (env : Env) (self : ModelClient)
    (json : Option Json) (data : Json) (stream : Bool) (latency : ℚ)
    (flag : Bool) (hf : env.usageEndpoints self.endpoint = some flag) :
    (∀ e, env.requestUsage = .error e →
      getUsage env self json data stream latency = none)
    ∧ ∀ acc e, env.requestUsage = .ok acc →
        computeDetail env self flag json data stream latency = .error e →
        getUsage env self json data stream latency = some acc := by
  constructor
  · intro e he
    simp only [getUsage, hf, he]
  · intro acc e ha hc
    simp only [getUsage, hf, ha, hc]

/-- Witness for `getUsage_exception_policy`: with a tokenizer that raises,
the accumulator is returned unchanged. -/
theorem getUsage_exception_policy_witness :
    getUsage envBoom self0 none (.obj []) false 0 = some Usage.empty :=
  (getUsage_exception_policy envBoom self0 none (.obj []) false 0 true
    rfl).2 Usage.empty (.generic "Boom") rfl rfl

/-- Counterexample to C2 as stated: the tokenizer raises inside the usage
computation, the exception is caught, but `_get_usage` returns the resolved
accumulator, not `None`. -/
theorem getUsage_exception_returns_accumulator_cex :
    computeDetail envBoom self0 true none (.obj []) false 0 =
      .error (.generic "Boom")
    ∧ getUsage envBoom self0 none (.obj []) false 0 = some Usage.empty
    ∧ getUsage envBoom self0 none (.obj []) false 0 ≠ none :=
  ⟨rfl, rfl, fun hc => Option.noConfusion hc⟩

/-- C3 (amended): for a null-mapped endpoint `_format_request` does not fail:
Python `urljoin(base, None)` returns the base unchanged, so the formatted
request targets the backend's base URL and no `UnsupportedEndpoint`-style
error is raised before the network call. -/
theorem formatRequest_null_endpoint (env : Env) (self : ModelClient)
    (json files data : Option Json)
    (h : self.endpointTable self.endpoint = none) :
    (∀ fr, formatRequest env self json files data = .ok fr →
      fr.url = self.apiUrl)
    ∧ formatRequest env self none files data =
        .ok ⟨self.apiUrl, [("Authorization", "Bearer " ++ self.apiKey)],
          none, files, data⟩ := by
  have hurl : pyUrljoin env self.apiUrl (self.endpointTable self.endpoint)
      = self.apiUrl := by rw [h]; rfl
  constructor
  · intro fr hfr
    simp only [formatRequest, hurl] at hfr
    repeat' split at hfr
    all_goals try exact Except.noConfusion hfr
    all_goals (injection hfr with hfr; subst hfr; rfl)
  · simp only [formatRequest, hurl]

/-- Witness for `formatRequest_null_endpoint` on a concrete client whose
table maps every endpoint to `None`. -/
theorem formatRequest_null_endpoint_witness :
    formatRequest env0 selfNull none none none =
      .ok ⟨selfNull.apiUrl, [("Authorization", "Bearer " ++ selfNull.apiKey)],
        none, none, none⟩ :=
  (formatRequest_null_endpoint env0 selfNull none none none rfl).2

/-- Counterexample to C3 as stated: with a null table entry the formatting
succeeds and produces the base URL — there is no fail-fast
`UnsupportedEndpoint` error in the code. -/
theorem formatRequest_null_endpoint_cex :
    selfNull.endpointTable selfNull.endpoint = none
    ∧ formatRequest env0 selfNull none none none =
        .ok ⟨"http://api/", [("Authorization", "Bearer k")],
          none, none, none⟩ :=
  ⟨rfl, rfl⟩

/-- C4 (code bug): when the terminal marker arrives in the very first chunk
with EMPTY pre-marker bytes, the code still records the first-token
timestamp, because line 429 compares the `bytes` value `last_chunks` against
the `str` value `""` — which is always unequal in Python — so the
non-emptiness conjunct of the edge case is vacuously true. -/
theorem firstToken_set_on_empty_premarker_bug :
    findMarker "data: [DONE]" = some 0
    ∧ "data: [DONE]".take 0 = ""
    ∧ bytesNeEmptyStr "" = true
    ∧ stepChunk env0 self0 none [] 200 initLoopSt "data: [DONE]" =
        .ok ([("data: [DONE]", 200)], ⟨[""], true⟩) :=
  ⟨rfl, rfl, rfl, rfl⟩

/-- C6: every successfully computed per-item usage `Detail` satisfies
`total_tokens = prompt_tokens + completion_tokens` and
`cost = round(prompt/1e6 × prompt_cost + completion/1e6 × completion_cost, 6)`;
folding the detail into the accumulator preserves the
`total = prompt + completion` invariant of the running totals. -/
theorem usage_cost_total_invariant (env : Env) (self : ModelClient)
    (json : Option Json) (data : Json) (stream : Bool) (latency : ℚ)
    (flag : Bool) (acc : Usage) (d : Detail) (u : Usage)
    (hf : env.usageEndpoints self.endpoint = some flag)
    (hr : env.requestUsage = .ok acc)
    (hd : computeDetail env self flag json data stream latency = .ok d)
    (hu : getUsage env self json data stream latency = some u)
    (hinv : acc.total_tokens = acc.prompt_tokens + acc.completion_tokens) :
    d.usage.total_tokens = d.usage.prompt_tokens + d.usage.completion_tokens
    ∧ d.usage.cost =
        round6 ((d.usage.prompt_tokens : ℚ) / 1000000 * self.costs.prompt_tokens
          + (d.usage.completion_tokens : ℚ) / 1000000
            * self.costs.completion_tokens)
    ∧ u = accumulate acc d
    ∧ u.total_tokens = u.prompt_tokens + u.completion_tokens := by
  obtain ⟨idStr, p, c, cb, rfl⟩ :=
    computeDetail_ok_shape env self flag json data stream latency d hd
  have hu' : getUsage env self json data stream latency =
      some (accumulate acc (mkDetail self idStr p c cb)) := by
    simp only [getUsage, hf, hr, hd]
  rw [hu'] at hu
  injection hu with hu
  subst hu
  refine ⟨rfl, rfl, rfl, ?_⟩
  show acc.total_tokens + (p + c) =
    (acc.prompt_tokens + p) + (acc.completion_tokens + c)
  rw [hinv]
  ring

/-- Witness for `usage_cost_total_invariant` on a tokenizer returning 3
prompt and 5 completion tokens over an empty accumulator. -/
theorem usage_cost_total_invariant_witness :
    (mkDetail self0 "gen" 3 5 cb0).usage.total_tokens =
        (mkDetail self0 "gen" 3 5 cb0).usage.prompt_tokens +
          (mkDetail self0 "gen" 3 5 cb0).usage.completion_tokens
    ∧ (mkDetail self0 "gen" 3 5 cb0).usage.cost =
        round6 (((mkDetail self0 "gen" 3 5 cb0).usage.prompt_tokens : ℚ)
            / 1000000 * self0.costs.prompt_tokens
          + ((mkDetail self0 "gen" 3 5 cb0).usage.completion_tokens : ℚ)
            / 1000000 * self0.costs.completion_tokens)
    ∧ accumulate Usage.empty (mkDetail self0 "gen" 3 5 cb0) =
        accumulate Usage.empty (mkDetail self0 "gen" 3 5 cb0)
    ∧ (accumulate Usage.empty (mkDetail self0 "gen" 3 5 cb0)).total_tokens =
        (accumulate Usage.empty (mkDetail self0 "gen" 3 5 cb0)).prompt_tokens +
          (accumulate Usage.empty
            (mkDetail self0 "gen" 3 5 cb0)).completion_tokens :=
  usage_cost_total_invariant envTok self0 none (.obj []) false 0 true
    Usage.empty (mkDetail self0 "gen" 3 5 cb0)
    (accumulate Usage.empty (mkDetail self0 "gen" 3 5 cb0))
    rfl rfl rfl rfl rfl

/-- C7: each of the four carbon bound fields of the accumulator stays absent
while every contribution is null, is lazily initialized to `0` on the first
non-null contribution, accumulates by addition of non-null contributions
(hence is monotonically non-decreasing for non-negative contributions), and
`accumulate` applies exactly this step to each of the four fields. -/
theorem carbon_bounds_accumulation (l : List (Option ℚ)) (a v : ℚ)
    (u : Usage) (d : Detail)
    (hl : ∀ c ∈ l, c = none) (hv : 0 ≤ v) :
    l.foldl accCarbonBound none = none
    ∧ accCarbonBound none (some v) = some (0 + v)
    ∧ accCarbonBound (some a) none = some a
    ∧ accCarbonBound (some a) (some v) = some (a + v)
    ∧ (∀ b, accCarbonBound (some a) (some v) = some b → a ≤ b)
    ∧ (accumulate u d).carbon.kgCO2eq.min =
        accCarbonBound u.carbon.kgCO2eq.min d.usage.carbon.kgCO2eq.min
    ∧ (accumulate u d).carbon.kgCO2eq.max =
        accCarbonBound u.carbon.kgCO2eq.max d.usage.carbon.kgCO2eq.max
    ∧ (accumulate u d).carbon.kWh.min =
        accCarbonBound u.carbon.kWh.min d.usage.carbon.kWh.min
    ∧ (accumulate u d).carbon.kWh.max =
        accCarbonBound u.carbon.kWh.max d.usage.carbon.kWh.max := by
  have hfold : ∀ (m : List (Option ℚ)), (∀ c ∈ m, c = none) →
      m.foldl accCarbonBound none = none := by
    intro m
    induction m with
    | nil => intro _; rfl
    | cons c cs ih =>
      intro hm
      have hc : c = none := hm c (by simp)
      subst hc
      exact ih (fun x hx => hm x (by simp [hx]))
  refine ⟨hfold l hl, rfl, rfl, rfl, ?_, rfl, rfl, rfl, rfl⟩
  intro b hb
  injection hb with hb
  subst hb
  show a ≤ a + v
  linarith

/-- Witness for `carbon_bounds_accumulation` at concrete bounds. -/
theorem carbon_bounds_accumulation_witness :
    ([none] : List (Option ℚ)).foldl accCarbonBound none = none
    ∧ accCarbonBound none (some 2) = some (0 + 2)
    ∧ accCarbonBound (some 1) none = some 1
    ∧ accCarbonBound (some 1) (some 2) = some (1 + 2)
    ∧ (∀ b, accCarbonBound (some 1) (some 2) = some b → (1 : ℚ) ≤ b)
    ∧ (accumulate Usage.empty (mkDetail self0 "gen" 0 0 cb0)).carbon.kgCO2eq.min =
        accCarbonBound Usage.empty.carbon.kgCO2eq.min
          (mkDetail self0 "gen" 0 0 cb0).usage.carbon.kgCO2eq.min
    ∧ (accumulate Usage.empty (mkDetail self0 "gen" 0 0 cb0)).carbon.kgCO2eq.max =
        accCarbonBound Usage.empty.carbon.kgCO2eq.max
          (mkDetail self0 "gen" 0 0 cb0).usage.carbon.kgCO2eq.max
    ∧ (accumulate Usage.empty (mkDetail self0 "gen" 0 0 cb0)).carbon.kWh.min =
        accCarbonBound Usage.empty.carbon.kWh.min
          (mkDetail self0 "gen" 0 0 cb0).usage.carbon.kWh.min
    ∧ (accumulate Usage.empty (mkDetail self0 "gen" 0 0 cb0)).carbon.kWh.max =
        accCarbonBound Usage.empty.carbon.kWh.max
          (mkDetail self0 "gen" 0 0 cb0).usage.carbon.kWh.max :=
  carbon_bounds_accumulation [none] 1 2 Usage.empty
    (mkDetail self0 "gen" 0 0 cb0) (by simp) zero_le_two

/-- C8: when the JSON body (a truthy dict) contains a `model` key,
`_format_request` overwrites that key in place with the backend's own model
identifier, so the outbound body's `model` is the backend name; a body
without a `model` key is forwarded with its dict unchanged. -/
theorem formatRequest_model_rewrite (env : Env) (self : ModelClient)
    (files data : Option Json) (kvs : List (String × Json)) :
    (hasKey kvs "model" = true →
      formatRequest env self (some (.obj kvs)) files data =
        .ok ⟨pyUrljoin env self.apiUrl (self.endpointTable self.endpoint),
          [("Authorization", "Bearer " ++ self.apiKey)],
          some (.obj (setPairs kvs "model" (.str self.model))), files, data⟩)
    ∧ (hasKey kvs "model" = false →
      formatRequest env self (some (.obj kvs)) files data =
        .ok ⟨pyUrljoin env self.apiUrl (self.endpointTable self.endpoint),
          [("Authorization", "Bearer " ++ self.apiKey)],
          some (.obj kvs), files, data⟩)
    ∧ (∀ v, lookupKey (setPairs kvs "model" v) "model" = some v) := by
  refine ⟨?_, ?_, fun v => lookupKey_setPairs kvs "model" v⟩
  · intro hk
    cases kvs with
    | nil => simp [hasKey] at hk
    | cons p ps =>
      have hin : pyIn (.obj (p :: ps)) "model" = .ok true := by
        simp only [pyIn, hk]
      simp only [formatRequest, hin]
      rfl
  · intro hk
    cases kvs with
    | nil => rfl
    | cons p ps =>
      have hin : pyIn (.obj (p :: ps)) "model" = .ok false := by
        simp only [pyIn, hk]
      simp only [formatRequest, hin]
      rfl

/-- Witness for `formatRequest_model_rewrite`: the §8 scenario body with
caller model name rewritten to the backend name. -/
theorem formatRequest_model_rewrite_witness :
    formatRequest env0 self0
        (some (.obj [("model", .str "caller-name"), ("messages", .arr [])]))
        none none =
      .ok ⟨"http://api//v1/chat", [("Authorization", "Bearer k")],
        some (.obj [("model", .str "backend-name"), ("messages", .arr [])]),
        none, none⟩ :=
  (formatRequest_model_rewrite env0 self0 none none
    [("model", .str "caller-name"), ("messages", .arr [])]).1 rfl

/-- C10: `_format_response` rewrites the response only when the Content-Type
header equals the exact string `application/json`; for any other value
(parameterized variants, missing header) the original response object is
returned unchanged. -/
theorem formatResponse_requires_exact_content_type (env : Env)
    (self : ModelClient) (json : Option Json) (response : HttpxResponse)
    (additionalData : List (String × Json)) (lat : ℚ)
    (h : headersGet response.headers "Content-Type" "" ≠ "application/json") :
    formatResponse env self json response additionalData lat = .ok response := by
  simp only [formatResponse]
  rw [if_neg h]

/-- Witness for `formatResponse_requires_exact_content_type` on the
parameterized variant `application/json; charset=utf-8`. -/
theorem formatResponse_requires_exact_content_type_witness :
    formatResponse env0 self0 none
        ⟨200, [("Content-Type", "application/json; charset=utf-8")], "{}"⟩
        [] 0 =
      .ok ⟨200, [("Content-Type", "application/json; charset=utf-8")], "{}"⟩ :=
  formatResponse_requires_exact_content_type env0 self0 none
    ⟨200, [("Content-Type", "application/json; charset=utf-8")], "{}"⟩ [] 0
    (by decide)

/-- C5: on any httpx timeout variety `forward_request` raises
`HTTPException(504)` with the fixed message
`Request timed out, model is too busy.`, and `forward_stream` yields the
pairs of the chunks received so far followed by exactly one final
(error-payload, 504) pair with the same message, then terminates without
raising past the sequence boundary. -/
theorem transport_timeout_504 (env : Env) (self : ModelClient)
    (json files data : Option Json) (add : List (String × Json))
    (k : TimeoutKind) (lat : ℚ) (fr : FormattedRequest) (status : Nat)
    (chunks : List String) (outs : List (String × Nat)) (st : LoopSt)
    (hfmt : formatRequest env self json files data = .ok fr)
    (hrun : runChunks env self fr.json add status initLoopSt chunks =
      (outs, .ok st)) :
    forwardRequest env self "POST" json files data add (.timeout k) lat =
      .error (.http 504 (.str "Request timed out, model is too busy."))
    ∧ forwardStream env self "POST" json files data add
        ⟨status, chunks, .timeout k⟩ =
      .ok (outs ++
        [(env.dumps (.obj [("detail",
            .str "Request timed out, model is too busy.")]), 504)]) := by
  constructor
  · unfold forwardRequest
    rw [hfmt]
  · unfold forwardStream
    rw [hfmt]
    simp only [streamLoop, hrun]
    rfl

/-- Witness for `transport_timeout_504` at a connect timeout on an empty
received prefix. -/
theorem transport_timeout_504_witness :
    forwardRequest env0 self0 "POST" none none none []
        (.timeout .connectTimeout) 0 =
      .error (.http 504 (.str "Request timed out, model is too busy."))
    ∧ forwardStream env0 self0 "POST" none none none []
        ⟨200, [], .timeout .connectTimeout⟩ =
      .ok ([] ++
        [(env0.dumps (.obj [("detail",
            .str "Request timed out, model is too busy.")]), 504)]) :=
  transport_timeout_504 env0 self0 none none none [] .connectTimeout 0
    ⟨"http://api//v1/chat", [("Authorization", "Bearer k")], none, none, none⟩
    200 [] [] initLoopSt rfl rfl

/-- C9: in error mode (non-2xx upstream status) a chunk that is not valid
JSON makes the decode exception escape to the outer handler: the chunk is
not forwarded with the upstream status, the generator yields exactly one
final `{"detail": "JSONDecodeError"}` pair with status 500, and terminates
(whatever the transport sequence would have done next). -/
theorem error_mode_decode_failure_500 (env : Env) (self : ModelClient)
    (json files data : Option Json) (add : List (String × Json))
    (status : Nat) (pre post : List String) (bad : String)
    (outs : List (String × Nat)) (st : LoopSt) (fr : FormattedRequest)
    (ending : StreamEnd)
    (hs : status / 100 ≠ 2)
    (hfmt : formatRequest env self json files data = .ok fr)
    (hpre : runChunks env self fr.json add status initLoopSt pre =
      (outs, .ok st))
    (hbad : env.loads bad = none) :
    forwardStream env self "POST" json files data add
        ⟨status, pre ++ bad :: post, ending⟩ =
      .ok (outs ++
        [(env.dumps (.obj [("detail", .str "JSONDecodeError")]), 500)]) := by
  have hstep : stepChunk env self fr.json add status st bad =
      .error .jsonDecodeError := by
    unfold stepChunk
    rw [if_pos hs, hbad]
  have h2 : runChunks env self fr.json add status st (bad :: post) =
      ([], .raised .jsonDecodeError) := by
    simp only [runChunks]
    rw [hstep]
  have h3 := runChunks_append_ok env self fr.json add status pre initLoopSt st
    outs (bad :: post) hpre
  unfold forwardStream
  rw [hfmt]
  simp only [streamLoop, h3, h2, pyExcPair, PyExc.excName, List.append_nil]

/-- Witness for `error_mode_decode_failure_500`: upstream status 500, one
undecodable chunk. -/
theorem error_mode_decode_failure_500_witness :
    forwardStream env0 self0 "POST" none none none []
        ⟨500, [] ++ "oops" :: [], .done⟩ =
      .ok ([] ++
        [(env0.dumps (.obj [("detail", .str "JSONDecodeError")]), 500)]) :=
  error_mode_decode_failure_500 env0 self0 none none none [] 500 [] []
    "oops" [] initLoopSt
    ⟨"http://api//v1/chat", [("Authorization", "Bearer k")], none, none, none⟩
    .done (by decide) rfl rfl rfl

/-- C1 (amended): at a terminal-marker chunk in success mode, when
`_format_stream_response` synthesizes an event (which requires the LAST
successfully decoded buffered payload to be a non-null JSON object, not
merely some decodable buffered event), `forward_stream` yields, in order,
the pre-marker bytes, exactly one `data: {json}` double-newline framed usage
event, and the post-marker bytes containing the DONE marker; when it yields
`None` the original unmodified terminal chunk is forwarded instead, and an
entirely undecodable buffer always yields `None`. -/
theorem forwardStream_terminal_emission (env : Env) (self : ModelClient)
    (json : Option Json) (add : List (String × Json)) (status : Nat)
    (st : LoopSt) (chunk : String) (i : Nat) (cid : String) (r : Option Json)
    (buffer : List String)
    (h2 : status / 100 = 2)
    (hm : findMarker chunk = some i)
    (hctx : env.requestCtxId = .ok cid)
    (hfmt : formatStreamResponse env self json (st.buffer ++ [chunk.take i])
      add 0 = .ok r) :
    ((r = none → stepChunk env self json add status st chunk =
        .ok ([(chunk, status)],
          ⟨st.buffer ++ [chunk.take i],
            if !st.firstToken && bytesNeEmptyStr (chunk.take i)
                && st.buffer.isEmpty
            then true else st.firstToken⟩))
      ∧ (∀ e, r = some e → stepChunk env self json add status st chunk =
        .ok ([(chunk.take i, status),
            ("data: " ++ env.dumps e ++ "\n\n", status),
            (chunk.drop i, status)],
          ⟨st.buffer ++ [chunk.take i],
            if !st.firstToken && bytesNeEmptyStr (chunk.take i)
                && st.buffer.isEmpty
            then true else st.firstToken⟩)))
    ∧ ((∀ l ∈ (buffer.map dataLines).flatten, env.loads l = none) →
        formatStreamResponse env self json buffer add 0 = .ok none) := by
  have hOk : (if (if (!st.firstToken && bytesNeEmptyStr (chunk.take i)
        && st.buffer.isEmpty) = true then true else st.firstToken) = true
      then Except.ok "" else env.requestCtxId) =
      .ok (if (if (!st.firstToken && bytesNeEmptyStr (chunk.take i)
        && st.buffer.isEmpty) = true then true else st.firstToken) = true
      then "" else cid) := by
    cases hb : (if (!st.firstToken && bytesNeEmptyStr (chunk.take i)
        && st.buffer.isEmpty) = true then true else st.firstToken) <;>
      simp [hctx]
  refine ⟨⟨?_, ?_⟩, ?_⟩
  · intro hr
    subst hr
    simp only [stepChunk]
    rw [if_neg (by omega)]
    simp only [hm]
    rw [hOk, hfmt]
  · intro e hr
    subst hr
    simp only [stepChunk]
    rw [if_neg (by omega)]
    simp only [hm]
    rw [hOk, hfmt]
  · intro hl
    exact formatStreamResponse_skip_all env self json buffer add 0 hl

/-- Witness for `forwardStream_terminal_emission`: single-chunk stream whose
formatter yields no event, so the original terminal chunk is forwarded. -/
theorem forwardStream_terminal_emission_witness :
    stepChunk env0 self0 none [] 200 initLoopSt "data: [DONE]" =
      .ok ([("data: [DONE]", 200)],
        ⟨[""], if !initLoopSt.firstToken && bytesNeEmptyStr "" && true
          then true else initLoopSt.firstToken⟩) :=
  (forwardStream_terminal_emission env0 self0 none [] 200 initLoopSt
    "data: [DONE]" 0 "rid" none ["zzz"] rfl rfl rfl rfl).1.1 rfl

/-- Counterexample to C1 as stated: the terminal chunk buffers the decodable
event `null` (Python `json.loads("null")` succeeds), yet no usage event is
synthesized — the stream forwards the original terminal chunk unchanged. -/
theorem forwardStream_null_event_skips_usage_cex :
    env0.loads "null" = some Json.null
    ∧ dataLines "data: null\n\n" = ["null"]
    ∧ forwardStream env0 self0 "POST" none none none []
        ⟨200, ["data: null\n\ndata: [DONE]"], .done⟩ =
      .ok [("data: null\n\ndata: [DONE]", 200)] :=
  ⟨rfl, rfl, rfl⟩
